import Mathlib

/-!
Shallow embedding of the trip_optimizer core:
`optimizer_api/utils/maps.py` (distance metric, spatial index, region
traversal) and `optimizer_api/utils/optimizer.py` (detour filter, cost
function, fuel constraint, refueling pipeline).

Real-valued quantities are modelled over `ℚ`.  The cosine used by the
longitude scaling in `calculate_route_distance` is abstracted as a
parameter `cosr : ℚ → ℚ` standing for the source's `np.cos(np.radians ·)`;
theorems quantify over it, and concrete instances pick points whose
longitude difference is zero so that the value of `cosr` is irrelevant.
`scipy.optimize.minimize` is abstracted as a parameter `solve` returning
the solution vector `x`.  Python exceptions escaping a function are
modelled with `Except PyException`, and a function whose source can raise
on some input returns an `Option`/`Except` that is `none`/`.error` there.
-/

namespace TripOptimizer

/-- Low-level Python exceptions the optimizer core can raise:
`ZeroDivisionError` from dividing by `number_of_stations` and
`ValueError` from `min` of an empty sequence. -/
inductive PyException where
  | zeroDivisionError
  | valueError
  deriving DecidableEq

/-- `CAR_RANGE = 500` miles (`optimizer.py` line 10). -/
def CAR_RANGE : ℚ := 500

/-- `FUEL_EFFICIENCY = 10` miles per gallon (`optimizer.py` line 11). -/
def FUEL_EFFICIENCY : ℚ := 10

/-- `ALPHA = 75`, tank allowance before requiring refueling
(`optimizer.py` line 12). -/
def ALPHA : ℚ := 75

/-- `MAXIMUM_DETOUR = 30` miles (`optimizer.py` line 13). -/
def MAXIMUM_DETOUR : ℚ := 30

/-- Embedding of `maps.calculate_route_distance`: taxicab (Manhattan)
distance in miles between two coordinate pairs, where one degree of
latitude is 69 miles and one degree of longitude is `69 * cosr` of the
average first component.  `cosr` abstracts `np.cos(np.radians ·)`. -/
def calculate_route_distance (cosr : ℚ → ℚ) (coord1 coord2 : ℚ × ℚ) : ℚ :=
  let lat_miles : ℚ := 69
  let avg_latitude : ℚ := (coord1.1 + coord2.1) / 2
  let lon_miles : ℚ := 69 * cosr avg_latitude
  abs (lat_miles * |coord1.1 - coord2.1| + lon_miles * |coord1.2 - coord2.2|)

/-- Embedding of `optimizer.find_closest_distance`: Python's
`min([calculate_route_distance(i, coord) for i in route])`, which raises
`ValueError` (here: `none`) on an empty route and otherwise left-folds
the binary minimum over the mapped distances. -/
def find_closest_distance (cosr : ℚ → ℚ) (route : List (ℚ × ℚ))
    (coord : ℚ × ℚ) : Option ℚ :=
  match route.map (fun i => calculate_route_distance cosr i coord) with
  | [] => none
  | d :: ds => some (ds.foldl min d)

theorem foldl_min_le_init (ds : List ℚ) (d : ℚ) : ds.foldl min d ≤ d := by
  induction ds generalizing d with
  | nil => exact le_refl d
  | cons a t ih =>
    calc (a :: t).foldl min d = t.foldl min (min d a) := rfl
    _ ≤ min d a := ih (min d a)
    _ ≤ d := min_le_left d a

theorem foldl_min_le_mem (ds : List ℚ) (d : ℚ) :
    ∀ x ∈ ds, ds.foldl min d ≤ x := by
  induction ds generalizing d with
  | nil => intro x hx; exact absurd hx (List.not_mem_nil x)
  | cons a t ih =>
    intro x hx
    rcases List.mem_cons.mp hx with h | h
    · rw [h]
      calc (a :: t).foldl min d = t.foldl min (min d a) := rfl
      _ ≤ min d a := foldl_min_le_init t (min d a)
      _ ≤ a := min_le_right d a
    · exact ih (min d a) x h

theorem foldl_min_eq_or_mem (ds : List ℚ) (d : ℚ) :
    ds.foldl min d = d ∨ ds.foldl min d ∈ ds := by
  induction ds generalizing d with
  | nil => exact Or.inl rfl
  | cons a t ih =>
    have hfold : (a :: t).foldl min d = t.foldl min (min d a) := rfl
    rcases ih (min d a) with h | h
    · rcases min_choice d a with hm | hm
      · exact Or.inl (by rw [hfold, h, hm])
      · exact Or.inr (by rw [hfold, h, hm]; exact List.mem_cons_self a t)
    · exact Or.inr (by rw [hfold]; exact List.mem_cons_of_mem a h)

/-- Specification of `find_closest_distance` on a non-empty route: it
returns the exact minimum of the distance metric over the route points. -/
theorem find_closest_distance_spec (cosr : ℚ → ℚ) (route : List (ℚ × ℚ))
    (coord : ℚ × ℚ) (h : route ≠ []) :
    ∃ m, find_closest_distance cosr route coord = some m ∧
      (∃ p ∈ route, m = calculate_route_distance cosr p coord) ∧
      (∀ p ∈ route, m ≤ calculate_route_distance cosr p coord) := by
  match route with
  | [] => exact absurd rfl h
  | p0 :: rest =>
    refine ⟨(rest.map (fun i => calculate_route_distance cosr i coord)).foldl
      min (calculate_route_distance cosr p0 coord), rfl, ?_, ?_⟩
    · rcases foldl_min_eq_or_mem
          (rest.map (fun i => calculate_route_distance cosr i coord))
          (calculate_route_distance cosr p0 coord) with hh | hh
      · exact ⟨p0, List.mem_cons_self p0 rest, hh⟩
      · rcases List.mem_map.mp hh with ⟨q, hq, hqe⟩
        exact ⟨q, List.mem_cons_of_mem p0 hq, hqe.symm⟩
    · intro p hp
      rcases List.mem_cons.mp hp with hh | hh
      · subst hh
        exact foldl_min_le_init _ _
      · exact foldl_min_le_mem _ _ _
          (List.mem_map.mpr ⟨p, hh, rfl⟩)

/-- The scaled detour value `refuel_optimizer` compares against
`MAXIMUM_DETOUR` (`optimizer.py` lines 93-107): the whole array of
closest distances is multiplied by 100 before the `<= MAXIMUM_DETOUR`
filter, so per station it is `find_closest_distance(route, coord) * 100`. -/
def optimizer_detour (cosr : ℚ → ℚ) (route : List (ℚ × ℚ))
    (coord : ℚ × ℚ) : Option ℚ :=
  (find_closest_distance cosr route coord).map (fun m => m * 100)

/-- C8: for every abstracted cosine and all coordinate pairs, the
distance metric is symmetric and the distance from a coordinate to
itself is zero. -/
theorem C8_distance_symm_and_self_zero (cosr : ℚ → ℚ) (a b : ℚ × ℚ) :
    calculate_route_distance cosr a b = calculate_route_distance cosr b a ∧
    calculate_route_distance cosr a a = 0 := by
  constructor
  · unfold calculate_route_distance
    rw [abs_sub_comm b.1 a.1, abs_sub_comm b.2 a.2, add_comm b.1 a.1]
  · unfold calculate_route_distance
    simp

/-- C9: on a non-empty route, `find_closest_distance` returns the
distance metric to some route point and is a lower bound of the distance
metric over all route points (the exact minimum); on the empty route it
returns no value (Python raises `ValueError`). -/
theorem C9_find_closest_distance_is_min (cosr : ℚ → ℚ) :
    (∀ coord, find_closest_distance cosr [] coord = none) ∧
    (∀ (route : List (ℚ × ℚ)) (coord : ℚ × ℚ), route ≠ [] →
      ∃ m, find_closest_distance cosr route coord = some m ∧
        (∃ p ∈ route, m = calculate_route_distance cosr p coord) ∧
        (∀ p ∈ route, m ≤ calculate_route_distance cosr p coord)) :=
  ⟨fun _ => rfl, fun route coord h => find_closest_distance_spec cosr route coord h⟩

/-- Witness for C9 at the one-point route `[(0, 0)]` and coordinate `(1, 0)`. -/
theorem C9_witness :
    ∃ m, find_closest_distance (fun _ => 1) [((0 : ℚ), (0 : ℚ))] (1, 0) = some m ∧
      (∃ p ∈ [((0 : ℚ), (0 : ℚ))],
        m = calculate_route_distance (fun _ => 1) p (1, 0)) ∧
      (∀ p ∈ [((0 : ℚ), (0 : ℚ))],
        m ≤ calculate_route_distance (fun _ => 1) p (1, 0)) :=
  (C9_find_closest_distance_is_min (fun _ => 1)).2 [((0 : ℚ), (0 : ℚ))] (1, 0)
    (List.cons_ne_nil _ _)

/-- C2 counterexample: for the one-point route `[(0, 0)]` and station
coordinate `(1, 0)` the minimum Distance Metric over the route is 69
miles, but the value the optimizer compares against the detour threshold
is 6900, not 69. -/
theorem C2_counterexample :
    find_closest_distance (fun _ => 1) [((0 : ℚ), (0 : ℚ))] (1, 0) = some 69 ∧
    optimizer_detour (fun _ => 1) [((0 : ℚ), (0 : ℚ))] (1, 0) = some 6900 ∧
    (6900 : ℚ) ≠ 69 := by
  refine ⟨?_, ?_, by norm_num⟩
  · show some (calculate_route_distance (fun _ => (1 : ℚ)) (0, 0) (1, 0)) = some 69
    norm_num [calculate_route_distance]
  · show some (calculate_route_distance (fun _ => (1 : ℚ)) (0, 0) (1, 0) * 100)
      = some 6900
    norm_num [calculate_route_distance]

/-- C2 amended: the value the optimizer compares against the
maximum-detour threshold equals 100 times the minimum, over every point
of the route polyline, of the Distance Metric between that route point
and the station's coordinate. -/
theorem C2_scaled_detour_is_min_times_100 (cosr : ℚ → ℚ)
    (route : List (ℚ × ℚ)) (coord : ℚ × ℚ) (h : route ≠ []) :
    ∃ m, optimizer_detour cosr route coord = some (m * 100) ∧
      (∃ p ∈ route, m = calculate_route_distance cosr p coord) ∧
      (∀ p ∈ route, m ≤ calculate_route_distance cosr p coord) := by
  rcases find_closest_distance_spec cosr route coord h with ⟨m, hm, hmem, hle⟩
  exact ⟨m, by rw [optimizer_detour, hm]; rfl, hmem, hle⟩

/-- Witness for the amended C2 at the one-point route `[(0, 0)]` and
coordinate `(2, 0)`. -/
theorem C2_amended_witness :
    ∃ m, optimizer_detour (fun _ => 1) [((0 : ℚ), (0 : ℚ))] (2, 0) = some (m * 100) ∧
      (∃ p ∈ [((0 : ℚ), (0 : ℚ))],
        m = calculate_route_distance (fun _ => 1) p (2, 0)) ∧
      (∀ p ∈ [((0 : ℚ), (0 : ℚ))],
        m ≤ calculate_route_distance (fun _ => 1) p (2, 0)) :=
  C2_scaled_detour_is_min_times_100 (fun _ => 1) [((0 : ℚ), (0 : ℚ))] (2, 0)
    (List.cons_ne_nil _ _)

/-- One row of the fuel-station reference table (`with_cords.csv`), with
the columns `refuel_optimizer` reads.  The coordinate string has already
been parsed into a pair. -/
structure Station where
  state : String
  truckstop_name : String
  address : String
  coordinates : ℚ × ℚ
  retail_price : ℚ
  deriving DecidableEq

/-- The route input of `refuel_optimizer`: polyline plus total distance
in miles. -/
structure RouteData where
  route : List (ℚ × ℚ)
  distance : ℚ

/-- One entry of the returned plan's `"refuel stops"` list
(`optimizer.py` lines 143-151). -/
structure Stop where
  station : String
  fuel : ℚ
  address : String
  coordinates : ℚ × ℚ
  deriving DecidableEq

/-- The dictionary `refuel_optimizer` returns: `"refuel stops"` and
`"total cost"`. -/
structure RefuelPlan where
  refuel_stops : List Stop
  total_cost : ℚ
  deriving DecidableEq

/-- Embedding of `optimizer.cost_function`:
`sum((gallons + 2 * detour_distances / FUEL_EFFICIENCY) * price_per_gallon)`,
elementwise over the three station-indexed arrays. -/
def cost_function (gallons price_per_gallon detour_distances : List ℚ) : ℚ :=
  (List.zipWith (fun g pd => (g + 2 * pd.2 / FUEL_EFFICIENCY) * pd.1)
    gallons (List.zip price_per_gallon detour_distances)).sum

/-- The right-hand side of the fuel constraint:
`(distance + MAXIMUM_DETOUR - CAR_RANGE + ALPHA) / FUEL_EFFICIENCY`
(`optimizer.py` line 67). -/
def required_gallons (distance : ℚ) : ℚ :=
  (distance + MAXIMUM_DETOUR - CAR_RANGE + ALPHA) / FUEL_EFFICIENCY

/-- Embedding of `optimizer.constraint`: the residual
`sum(gallons) - required_gallons distance`. -/
def constraint (gallons : List ℚ) (distance : ℚ) : ℚ :=
  gallons.sum - required_gallons distance

/-- One entry of the `constraints` list handed to the solver: its scipy
constraint type and its residual function. -/
structure ConstraintSpec where
  ctype : String
  fn : List ℚ → ℚ → ℚ

/-- The `constraints` list of `refuel_optimizer` (lines 119-125): a single
equality constraint whose residual is `constraint`, applied to the route
distance. -/
def constraints : List ConstraintSpec := [⟨"eq", constraint⟩]

/-- Embedding of `np.round` on one value: round half to even. -/
def np_round (q : ℚ) : ℚ :=
  let f : ℤ := ⌊q⌋
  if q - f < 1 / 2 then f
  else if 1 / 2 < q - f then f + 1
  else if f % 2 = 0 then f else f + 1

/-- Embedding of the initial guess (`optimizer.py` lines 127-131): the
same value replicated once per station.  The numerator omits
`MAXIMUM_DETOUR`.  The Python expression divides by `number_of_stations`
before replicating, so it raises `ZeroDivisionError` when that count is
zero; the caller below models that case explicitly. -/
def initial_guess (distance : ℚ) (number_of_stations : ℕ) : List ℚ :=
  List.replicate number_of_stations
    (((distance + ALPHA - CAR_RANGE) / FUEL_EFFICIENCY) / number_of_stations)

/-- Per-station detours of `refuel_optimizer` (lines 93-104): the scaled
closest distance for each filtered station, failing (`ValueError`) as
soon as one station's `min` is taken over an empty route. -/
def compute_detour_distances (cosr : ℚ → ℚ) (route : List (ℚ × ℚ)) :
    List Station → Option (List ℚ)
  | [] => some []
  | s :: rest =>
    match optimizer_detour cosr route s.coordinates,
        compute_detour_distances cosr route rest with
    | some d, some ds => some (d :: ds)
    | _, _ => none

/-- Post-processing stage of `refuel_optimizer` (lines 142-162): build
the per-station records from the solver vector `x`, compute the reported
total cost from the rounded quantities over all surviving stations, and
keep only stations with strictly more than one gallon.
`scipy.optimize.minimize` returns `x` with the same length as the
initial guess, so `x` and the surviving-station list are aligned by
`zip`. -/
def post_process (x : List ℚ) (stations : List Station)
    (price_per_gallon detour_distances : List ℚ) : RefuelPlan :=
  let result_per_station := (List.zip x stations).map (fun p =>
    { station := p.2.truckstop_name, fuel := p.1,
      address := p.2.address, coordinates := p.2.coordinates : Stop })
  let total_refuel_cost :=
    cost_function (x.map np_round) price_per_gallon detour_distances
  { refuel_stops := result_per_station.filter (fun m => decide (1 < m.fuel)),
    total_cost := total_refuel_cost }

/-- Embedding of `refuel_optimizer` (lines 71-162).  `data` stands for
the already-parsed station CSV (rows with missing fields are not
representable here, so `dropna` is the identity); `solve` abstracts
`scipy.optimize.minimize`, receiving prices, detours, route distance and
the initial guess, and returning the solution vector `x`. -/
def refuel_optimizer (cosr : ℚ → ℚ)
    (solve : List ℚ → List ℚ → ℚ → List ℚ → List ℚ)
    (route_data : RouteData) (states_crossed : List String)
    (data : List Station) : Except PyException RefuelPlan :=
  let filtered_data :=
    (data.filter (fun s => states_crossed.contains s.state)).eraseDups
  match compute_detour_distances cosr route_data.route filtered_data with
  | none => .error .valueError
  | some detour_distances =>
    let kept := (List.zip filtered_data detour_distances).filter
      (fun p => decide (p.2 ≤ MAXIMUM_DETOUR))
    let filtered_data2 := kept.map Prod.fst
    let detour_distances2 := kept.map Prod.snd
    let number_of_stations := filtered_data2.length
    let price_per_gallon := filtered_data2.map (fun s => s.retail_price)
    if number_of_stations = 0 then .error .zeroDivisionError
    else
      let x := solve price_per_gallon detour_distances2 route_data.distance
        (initial_guess route_data.distance number_of_stations)
      .ok (post_process x filtered_data2 price_per_gallon detour_distances2)

/-- C1: the solver receives a single equality constraint whose residual
is `constraint`, and for every route distance and non-empty gallons
vector the residual vanishes exactly when the purchased gallons sum to
`(d + 30 - 500 + 75) / 10`. -/
theorem C1_fuel_constraint_equality (gallons : List ℚ) (d : ℚ)
    (h : gallons ≠ []) :
    constraints = [⟨"eq", constraint⟩] ∧
    (constraint gallons d = 0 ↔ gallons.sum = (d + 30 - 500 + 75) / 10) := by
  refine ⟨rfl, ?_⟩
  unfold constraint required_gallons MAXIMUM_DETOUR CAR_RANGE ALPHA FUEL_EFFICIENCY
  rw [sub_eq_zero]

/-- Witness for C1 at the one-station gallons vector `[41 / 2]` and
distance 600. -/
theorem C1_witness :
    constraints = [⟨"eq", constraint⟩] ∧
    (constraint [(41 : ℚ) / 2] 600 = 0 ↔
      [(41 : ℚ) / 2].sum = (600 + 30 - 500 + 75) / 10) :=
  C1_fuel_constraint_equality [(41 : ℚ) / 2] 600 (List.cons_ne_nil _ _)

/-- C3: with zero surviving stations the pipeline raises an uncaught
`ZeroDivisionError` (dividing by `number_of_stations = 0` in the initial
guess) instead of a tagged infeasibility failure: concretely, the only
station lies in a state the route does not cross. -/
theorem C3_zero_stations_raises_zero_division :
    refuel_optimizer (fun _ => 1) (fun _ _ _ ig => ig)
      ⟨[(0, 0), (10, 10)], 600⟩ ["CA"]
      [⟨"NY", "Stop One", "1 Main St", (40, -74), 3⟩]
      = .error .zeroDivisionError := by
  rfl

/-- C4: the returned plan keeps exactly the surviving stations whose
solver quantity exceeds one gallon (every listed stop has fuel
strictly above one gallon), and the reported total cost is the cost
function at the rounded solver vector over all surviving stations,
including the ones dropped by the materiality threshold. -/
theorem C4_post_process_plan (x : List ℚ) (stations : List Station)
    (price_per_gallon detour_distances : List ℚ) :
    (post_process x stations price_per_gallon detour_distances).refuel_stops
      = ((List.zip x stations).filter (fun p => decide (1 < p.1))).map
          (fun p =>
            (⟨p.2.truckstop_name, p.1, p.2.address, p.2.coordinates⟩ : Stop)) ∧
    (∀ s ∈ (post_process x stations price_per_gallon detour_distances).refuel_stops,
      1 < s.fuel) ∧
    (post_process x stations price_per_gallon detour_distances).total_cost
      = cost_function (x.map np_round) price_per_gallon detour_distances := by
  refine ⟨?_, ?_, rfl⟩
  · show ((List.zip x stations).map _).filter _ = _
    rw [List.filter_map]
    rfl
  · intro s hs
    simp only [post_process] at hs
    exact of_decide_eq_true (List.mem_filter.mp hs).2

/-- C6 counterexample: at distance 600 with one surviving station, the
initial guess component is `35 / 2 = 17.5` gallons, while the
equality-constraint right-hand side divided by the station count is
`41 / 2 = 20.5` gallons. -/
theorem C6_counterexample :
    initial_guess 600 1 = [35 / 2] ∧
    ((600 : ℚ) + 30 - 500 + 75) / 10 / 1 = 41 / 2 ∧
    (35 : ℚ) / 2 ≠ 41 / 2 := by
  refine ⟨?_, by norm_num, by norm_num⟩
  rw [initial_guess]
  norm_num [ALPHA, CAR_RANGE, FUEL_EFFICIENCY, List.replicate]

/-- C6 amended: the initial guess has one component per surviving
station, and each component equals `((d + ALPHA - CAR_RANGE) /
FUEL_EFFICIENCY) / n` — the equal split of a total that omits the
`MAXIMUM_DETOUR` term of the equality-constraint right-hand side. -/
theorem C6_initial_guess_equal_split_without_detour (d : ℚ) (n : ℕ)
    (h : 0 < n) :
    (initial_guess d n).length = n ∧
    ∀ g ∈ initial_guess d n,
      g = ((d + ALPHA - CAR_RANGE) / FUEL_EFFICIENCY) / n := by
  exact ⟨List.length_replicate _ _, fun g hg => List.eq_of_mem_replicate hg⟩

/-- Witness for the amended C6 at distance 600 and two stations. -/
theorem C6_witness :
    (initial_guess 600 2).length = 2 ∧
    ∀ g ∈ initial_guess 600 2,
      g = ((600 + ALPHA - CAR_RANGE) / FUEL_EFFICIENCY) / ((2 : ℕ) : ℚ) :=
  C6_initial_guess_equal_split_without_detour 600 2 (by norm_num)

/-- C7 counterexample: at route distance `CAR_RANGE - ALPHA = 425` the
constraint right-hand side is 3 gallons, which is not `≤ 0`. -/
theorem C7_counterexample :
    required_gallons (CAR_RANGE - ALPHA) = 3 ∧
    ¬ required_gallons (CAR_RANGE - ALPHA) ≤ 0 := by
  norm_num [required_gallons, CAR_RANGE, ALPHA, MAXIMUM_DETOUR, FUEL_EFFICIENCY]

/-- C7 amended: the required-gallons right-hand side is nonpositive
exactly for distances at most `CAR_RANGE - ALPHA - MAXIMUM_DETOUR = 395`;
at distance `CAR_RANGE - ALPHA = 425` it equals 3; and the optimizer has
no degenerate zero-stations success path — with no surviving stations at
that distance it raises `ZeroDivisionError` rather than returning an
empty plan with total cost 0. -/
theorem C7_required_gallons_threshold (d : ℚ) :
    (required_gallons d ≤ 0 ↔ d ≤ CAR_RANGE - ALPHA - MAXIMUM_DETOUR) ∧
    required_gallons (CAR_RANGE - ALPHA) = 3 ∧
    refuel_optimizer (fun _ => 1) (fun _ _ _ ig => ig)
      ⟨[(0, 0), (1, 1)], CAR_RANGE - ALPHA⟩ ["CA"] []
      = .error .zeroDivisionError := by
  refine ⟨?_, ?_, rfl⟩
  · unfold required_gallons CAR_RANGE ALPHA MAXIMUM_DETOUR FUEL_EFFICIENCY
    constructor <;> intro h' <;> linarith
  · norm_num [required_gallons, CAR_RANGE, ALPHA, MAXIMUM_DETOUR, FUEL_EFFICIENCY]

/-- A region entry of the spatial index built by
`maps.build_spatial_index`: the containment tests of the precomputed
bounding box and of the simplified geometry, abstracted as Boolean
predicates on coordinates. -/
structure Region where
  bounding_box : ℚ × ℚ → Bool
  geometry : ℚ × ℚ → Bool

/-- The spatial index: state code to region data, kept as a list to
preserve the Python dict's iteration order. -/
abbrev SpatialIndex := List (String × Region)

/-- Dictionary access `spatial_index[code]`; `none` models `KeyError`. -/
def lookup_region (idx : SpatialIndex) (code : String) : Option Region :=
  (idx.find? (fun e => e.1 == code)).map Prod.snd

/-- The fallback scan of `get_states_crossed` (`maps.py` lines 234-241):
the first index entry, in iteration order, whose bounding box and
geometry both contain the point. -/
def scan_index (idx : SpatialIndex) (point : ℚ × ℚ) : Option String :=
  (idx.find? (fun e => e.2.bounding_box point && e.2.geometry point)).map
    Prod.fst

/-- One iteration of the loop body of `get_states_crossed` up to
`state_found` (lines 222-241): test the current state's bounding box and
geometry first, otherwise scan the whole index.  `.error ()` models the
`KeyError` that the dictionary access would raise if the current state
were not a key of the index. -/
def find_state (idx : SpatialIndex) (current_state : Option String)
    (point : ℚ × ℚ) : Except Unit (Option String) :=
  match current_state with
  | some cs =>
    match lookup_region idx cs with
    | none => .error ()
    | some r =>
      if r.bounding_box point && r.geometry point then .ok (some cs)
      else .ok (scan_index idx point)
  | none => .ok (scan_index idx point)

/-- The loop of `get_states_crossed` (lines 221-246): a found state is
appended, and becomes current, exactly when it differs from the current
state; a point with no state found changes nothing. -/
def get_states_crossed_aux (idx : SpatialIndex) :
    List (ℚ × ℚ) → Option String → List String → Except Unit (List String)
  | [], _, traversed_states => .ok traversed_states
  | point :: rest, current_state, traversed_states =>
    match find_state idx current_state point with
    | .error e => .error e
    | .ok none => get_states_crossed_aux idx rest current_state traversed_states
    | .ok (some sf) =>
      if current_state = some sf then
        get_states_crossed_aux idx rest current_state traversed_states
      else
        get_states_crossed_aux idx rest (some sf) (traversed_states ++ [sf])

/-- Embedding of `maps.get_states_crossed`: walk the route with no
initial current state and an empty output list. -/
def get_states_crossed (idx : SpatialIndex) (coordinates : List (ℚ × ℚ)) :
    Except Unit (List String) :=
  get_states_crossed_aux idx coordinates none []

theorem lookup_region_mem (idx : SpatialIndex) (s : String) (r : Region)
    (h : lookup_region idx s = some r) : (s, r) ∈ idx := by
  unfold lookup_region at h
  rcases Option.map_eq_some'.mp h with ⟨e, he, hr⟩
  obtain ⟨a, b⟩ := e
  have ha : a = s := by simpa using List.find?_some he
  have hb : b = r := hr
  subst ha
  subst hb
  exact List.mem_of_find?_eq_some he

theorem scan_index_mem (idx : SpatialIndex) (p : ℚ × ℚ) (s : String)
    (h : scan_index idx p = some s) : s ∈ idx.map Prod.fst := by
  unfold scan_index at h
  rcases Option.map_eq_some'.mp h with ⟨e, he, hs⟩
  exact hs ▸ List.mem_map_of_mem Prod.fst (List.mem_of_find?_eq_some he)

theorem key_lookup (idx : SpatialIndex) (s : String)
    (h : s ∈ idx.map Prod.fst) : ∃ r, lookup_region idx s = some r := by
  rcases List.mem_map.mp h with ⟨e, he, hs⟩
  have hsome : (idx.find? (fun e => e.1 == s)).isSome := by
    rw [List.find?_isSome]
    exact ⟨e, he, by simp [hs]⟩
  rcases Option.isSome_iff_exists.mp hsome with ⟨e', he'⟩
  refine ⟨e'.2, ?_⟩
  unfold lookup_region
  rw [he']
  rfl

theorem find_state_ok (idx : SpatialIndex) (current : Option String)
    (p : ℚ × ℚ)
    (hcur : current = none ∨ ∃ s, current = some s ∧ s ∈ idx.map Prod.fst) :
    ∃ sf, find_state idx current p = .ok sf ∧
      ∀ s, sf = some s → s ∈ idx.map Prod.fst := by
  rcases hcur with h | ⟨s, hs, hkey⟩
  · subst h
    exact ⟨scan_index idx p, rfl, fun s hs => scan_index_mem idx p s hs⟩
  · subst hs
    rcases key_lookup idx s hkey with ⟨r, hr⟩
    simp only [find_state, hr]
    by_cases hb : (r.bounding_box p && r.geometry p) = true
    · rw [if_pos hb]
      refine ⟨some s, rfl, fun s' hs' => ?_⟩
      injection hs' with h'
      rw [← h']
      exact hkey
    · rw [if_neg hb]
      exact ⟨scan_index idx p, rfl, fun s' hs' => scan_index_mem idx p s' hs'⟩

theorem get_states_crossed_aux_ok (idx : SpatialIndex)
    (coords : List (ℚ × ℚ)) :
    ∀ (current : Option String) (traversed : List String),
      (current = none ∨ ∃ s, current = some s ∧ s ∈ idx.map Prod.fst) →
      (∀ t ∈ traversed, t ∈ idx.map Prod.fst) →
      ∃ l, get_states_crossed_aux idx coords current traversed = .ok l ∧
        ∀ t ∈ l, t ∈ idx.map Prod.fst := by
  induction coords with
  | nil =>
    intro current traversed _ ht
    exact ⟨traversed, rfl, ht⟩
  | cons p rest ih =>
    intro current traversed hcur ht
    rcases find_state_ok idx current p hcur with ⟨sf, hsf, hmem⟩
    cases sf with
    | none =>
      simp only [get_states_crossed_aux, hsf]
      exact ih current traversed hcur ht
    | some s =>
      have hskey : s ∈ idx.map Prod.fst := hmem s rfl
      by_cases hc : current = some s
      · simp only [get_states_crossed_aux, hsf, if_pos hc]
        exact ih current traversed hcur ht
      · simp only [get_states_crossed_aux, hsf, if_neg hc]
        refine ih (some s) (traversed ++ [s]) (Or.inr ⟨s, rfl, hskey⟩) ?_
        intro t htm
        rcases List.mem_append.mp htm with h | h
        · exact ht t h
        · rw [List.mem_singleton] at h
          rw [h]
          exact hskey

/-- A concrete region: all points with first component below 10. -/
def regionA : Region :=
  ⟨fun q => decide (q.1 < 10), fun q => decide (q.1 < 10)⟩

/-- A concrete region: points with first component in `[10, 20)`. -/
def regionB : Region :=
  ⟨fun q => decide (10 ≤ q.1 ∧ q.1 < 20), fun q => decide (10 ≤ q.1 ∧ q.1 < 20)⟩

/-- A concrete two-region spatial index. -/
def idxAB : SpatialIndex := [("A", regionA), ("B", regionB)]

/-- C5: the empty route yields the empty list; a point contained in no
region's bounding box and geometry appends nothing and leaves the
current region unchanged (the current region, when present, being a key
of the index, as the loop maintains); and a concrete route crossing
region A, then B, then A again yields `["A", "B", "A"]`. -/
theorem C5_traversal_shape (idx : SpatialIndex) (current : Option String)
    (traversed : List String) (point : ℚ × ℚ) (rest : List (ℚ × ℚ))
    (hnomatch : ∀ e ∈ idx,
      (e.2.bounding_box point && e.2.geometry point) = false)
    (hcur : current = none ∨
      ∃ s r, current = some s ∧ lookup_region idx s = some r) :
    get_states_crossed idx [] = .ok [] ∧
    get_states_crossed_aux idx (point :: rest) current traversed
      = get_states_crossed_aux idx rest current traversed ∧
    get_states_crossed idxAB [(0, 0), (15, 0), (2, 0)]
      = .ok ["A", "B", "A"] := by
  have hscan : scan_index idx point = none := by
    unfold scan_index
    rw [List.find?_eq_none.mpr (fun e he => by simp [hnomatch e he])]
    rfl
  refine ⟨rfl, ?_, rfl⟩
  rcases hcur with h | ⟨s, r, hcs, hlk⟩
  · subst h
    simp [get_states_crossed_aux, find_state, hscan]
  · subst hcs
    have hrf : (r.bounding_box point && r.geometry point) = false :=
      hnomatch (s, r) (lookup_region_mem idx s r hlk)
    simp [get_states_crossed_aux, find_state, hlk, hrf, hscan]

/-- Witness for C5: a point matching neither concrete region leaves the
traversal state unchanged. -/
theorem C5_witness :
    get_states_crossed idxAB [] = .ok [] ∧
    get_states_crossed_aux idxAB [((50 : ℚ), (0 : ℚ))] (some "A") []
      = get_states_crossed_aux idxAB [] (some "A") [] ∧
    get_states_crossed idxAB [(0, 0), (15, 0), (2, 0)]
      = .ok ["A", "B", "A"] := by
  refine C5_traversal_shape idxAB (some "A") [] ((50 : ℚ), (0 : ℚ)) [] ?_ ?_
  · intro e he
    rcases List.mem_cons.mp he with h | h
    · subst h
      rfl
    · rw [List.mem_singleton] at h
      subst h
      rfl
  · exact Or.inr ⟨"A", regionA, rfl, rfl⟩

/-- C10: starting from no current region, the loop's current state is
always either absent or a key of the index, so the index lookup never
fails (`KeyError` is unreachable) and every element of the returned list
is a key of the spatial index. -/
theorem C10_traversal_keys_invariant (idx : SpatialIndex)
    (coordinates : List (ℚ × ℚ)) :
    ∃ l, get_states_crossed idx coordinates = .ok l ∧
      ∀ s ∈ l, s ∈ idx.map Prod.fst :=
  get_states_crossed_aux_ok idx coordinates none [] (Or.inl rfl)
    (fun t ht => absurd ht (List.not_mem_nil t))

end TripOptimizer
